import Mathlib

/-!
Shallow embedding of `src/sprint_1/interview.py` (AI Interview Assistant).

The Python module calls an external OpenAI completion service.  Each embedded
function takes the outcome of its (single) service call as an explicit oracle
argument: `TextOutcome` for the two free-text moderation calls and
`JsonOutcome` for the two JSON-shaped calls (the `json.loads` step on the raw
reply is part of the oracle, since `json.loads` is library code, not code of
this repository).  Every embedded function returns a `CallResult` carrying the
Python return value, whether the external service was actually called, and the
user-visible Streamlit messages (`st.error` / `st.warning`) it emitted;
console `print` calls are not user-visible and are not recorded.

Numeric JSON literals are modelled as integers; the evaluation payloads the
claims are about use only integer grades and indices.  Python treats `bool`
as a subclass of `int`, so `isinstance(x, int)` accepts booleans; the model
mirrors this in `JsonVal.asPyInt?`.
-/

/-- A user-visible Streamlit message: `st.error` or `st.warning`. -/
inductive UiMsg where
  | error (text : String)
  | warning (text : String)
  deriving DecidableEq

/-- Result of running one of the service-calling functions: `result` is the
Python return value, `calledService` records whether the external completion
service was actually invoked, and `messages` are the user-visible messages. -/
structure CallResult (α : Type) where
  result : α
  calledService : Bool
  messages : List UiMsg
  deriving DecidableEq

instance exceptDecidableEq {ε α : Type} [DecidableEq ε] [DecidableEq α] :
    DecidableEq (Except ε α)
  | .ok a, .ok b =>
    if h : a = b then .isTrue (by rw [h]) else .isFalse (by simp [h])
  | .ok _, .error _ => .isFalse (by simp)
  | .error _, .ok _ => .isFalse (by simp)
  | .error e, .error f =>
    if h : e = f then .isTrue (by rw [h]) else .isFalse (by simp [h])

/-- Oracle for a free-text completion call (role check, answer safety check).
`content s` is a response whose first choice has message content `s`;
`noContent` is a response with no usable choices or message content
(the falsy branch of the Python truthiness guard); `exception e` means the
client raised. -/
inductive TextOutcome where
  | content (s : String)
  | noContent
  | exception (e : String)
  deriving DecidableEq

/-- Decoded JSON values, as produced by `json.loads` (numbers restricted to
integers). -/
inductive JsonVal where
  | null
  | bool (b : Bool)
  | int (n : Int)
  | str (s : String)
  | arr (elems : List JsonVal)
  | obj (fields : List (String × JsonVal))

/-- Oracle for a JSON-mode completion call: `decoded j` is a reply whose
content `json.loads` decoded to `j`; `decodeError` is a reply on which
`json.loads` raised `JSONDecodeError`; `exception e` means the client call
itself raised. -/
inductive JsonOutcome where
  | decoded (j : JsonVal)
  | decodeError
  | exception (e : String)

/-- Python dict lookup for a dict built by `json.loads`; on a duplicated key
`json.loads` keeps the last occurrence, hence the recursion prefers the
tail. -/
def jsonLookup : List (String × JsonVal) → String → Option JsonVal
  | [], _ => none
  | (k, v) :: rest, key =>
    match jsonLookup rest key with
    | some w => some w
    | none => if k = key then some v else none

/-- Python `isinstance(x, int)` view of a JSON value (`bool` is a subclass of
`int` in Python, `True == 1` and `False == 0`). -/
def JsonVal.asPyInt? : JsonVal → Option Int
  | .int n => some n
  | .bool b => some (if b then 1 else 0)
  | _ => none

/-- Python `isinstance(x, str)` test. -/
def JsonVal.isStr : JsonVal → Bool
  | .str _ => true
  | _ => false

/-- String value of a JSON value, when it is a string. -/
def JsonVal.asStr? : JsonVal → Option String
  | .str s => some s
  | _ => none

/-- Truthiness of Python `s and s.strip()` being false: the string is empty or
consists only of whitespace. -/
def isBlank (s : String) : Bool := s.data.all Char.isWhitespace

/-- Python `str.strip()`: drop leading and trailing whitespace. -/
def pyStrip (s : String) : String :=
  String.mk (((s.data.dropWhile Char.isWhitespace).reverse.dropWhile
    Char.isWhitespace).reverse)

/-- Python `str.upper()` on the character range relevant here. -/
def pyUpper (s : String) : String := String.mk (s.data.map Char.toUpper)

/-- `check_role` (interview.py lines 18-75).  Sends the role name to the
moderation prompt; the reply is normalised with `.strip().upper()` and
compared against the literals `VALID` / `INVALID`.  Returns the original role
string when accepted, the empty string when rejected, and `none` (Python
`None`) on an exception, a response without content, or a reply that is
neither literal. -/
def check_role (role_to_check : String) (svc : TextOutcome) :
    CallResult (Option String) :=
  match svc with
  | .exception e =>
    ⟨none, true,
      [.error ("An unexpected error occurred during role name validation: " ++ e)]⟩
  | .noContent =>
    ⟨none, true, [.error "Error checking role name: Invalid response structure from AI."]⟩
  | .content s =>
    if s = "" then
      ⟨none, true, [.error "Error checking role name: Invalid response structure from AI."]⟩
    else
      let c := pyUpper (pyStrip s)
      if c = "VALID" then ⟨some role_to_check, true, []⟩
      else if c = "INVALID" then ⟨some "", true, []⟩
      else
        ⟨none, true,
          [.error ("Error checking role: AI response was unclear (" ++ pyStrip s ++
            "). Please try again.")]⟩

/-- `check_answer_safety` (interview.py lines 171-240).  Empty or
whitespace-only input short-circuits to safe (`some true`) without calling the
service.  Otherwise the reply is normalised and compared against `SAFE` /
`UNSAFE`; an unclear reply is treated as unsafe (`some false`, with an
`st.warning`), while an exception or a response without content yields `none`
with an `st.error`. -/
def check_answer_safety (answer_text : String) (svc : TextOutcome) :
    CallResult (Option Bool) :=
  if isBlank answer_text then
    ⟨some true, false, []⟩
  else
    match svc with
    | .exception e =>
      ⟨none, true,
        [.error ("An unexpected error occurred during answer safety check: " ++ e)]⟩
    | .noContent =>
      ⟨none, true,
        [.error "Error checking answer safety: Invalid response structure from AI."]⟩
    | .content s =>
      if s = "" then
        ⟨none, true,
          [.error "Error checking answer safety: Invalid response structure from AI."]⟩
      else
        let c := pyUpper (pyStrip s)
        if c = "SAFE" then ⟨some true, true, []⟩
        else if c = "UNSAFE" then ⟨some false, true, []⟩
        else
          ⟨some false, true,
            [.warning ("Safety check unclear: AI response was " ++ pyStrip s ++
              ". Review manually if possible.")]⟩

/-- `generate_questions_openai` (interview.py lines 79-167).  On a decoded
JSON object with a `questions` key holding a list of strings it returns that
list truncated to the requested count (`parsed_questions[:num_questions]`);
on any parse or shape failure it returns the empty list with an `st.error`;
on a client exception the `except` branch only prints to the console and the
function falls off the end, returning Python `None`. -/
def generate_questions_openai (num_questions : Nat) (svc : JsonOutcome) :
    CallResult (Option (List String)) :=
  match svc with
  | .exception _ => ⟨none, true, []⟩
  | .decodeError =>
    ⟨some [], true, [.error "Error: Could not parse the AI response as valid JSON."]⟩
  | .decoded data =>
    match data with
    | .obj fields =>
      match jsonLookup fields "questions" with
      | some (.arr parsed_questions) =>
        if parsed_questions.all JsonVal.isStr then
          ⟨some ((parsed_questions.filterMap JsonVal.asStr?).take num_questions),
            true, []⟩
        else
          ⟨some [], true,
            [.error "Error: AI returned invalid data format inside the JSON questions list."]⟩
      | _ =>
        ⟨some [], true,
          [.error "Error: AI response did not contain the expected questions list in the JSON object."]⟩
    | _ =>
      ⟨some [], true,
        [.error "Error: AI response did not contain the expected questions list in the JSON object."]⟩

/-- One entry of the `evaluations` list of a validated evaluation payload. -/
structure EvalItem where
  question_index : Int
  grade : Int
  justification : String
  deriving DecidableEq

/-- A validated (or synthesised) evaluation payload: per-question records plus
the overall grade and justification. -/
structure Evaluation where
  evaluations : List EvalItem
  overall_grade : Int
  overall_justification : String
  deriving DecidableEq

/-- The distinct failure modes of `evaluate_answers_openai`, one per `return
None` path: the entry guard, the `json.JSONDecodeError` handler, the
`ValueError` handler (schema validation), and the generic `Exception`
handler. -/
inductive EvalError where
  | invalidInput
  | decodeError
  | validationError (text : String)
  | serviceError (text : String)
  deriving DecidableEq

/-- Per-item validation loop of `evaluate_answers_openai` (interview.py lines
350-355): each entry must be a dict with a `question_index` equal to its
position, an integer `grade`, and a string `justification`; any violation
raises `ValueError`.  The Python code tests the sub-conditions in sequence
but every failure produces the same message, so the simultaneous match is
observationally identical. -/
def validate_items : List JsonVal → Nat → Except String (List EvalItem)
  | [], _ => .ok []
  | item :: rest, i =>
    match item with
    | .obj fields =>
      match jsonLookup fields "question_index", jsonLookup fields "grade",
          jsonLookup fields "justification" with
      | some qi, some g, some (.str just) =>
        match qi.asPyInt?, g.asPyInt? with
        | some qiv, some gv =>
          if qiv = Int.ofNat i then
            match validate_items rest (i + 1) with
            | .ok items => .ok (⟨Int.ofNat i, gv, just⟩ :: items)
            | .error m => .error m
          else
            .error ("Invalid structure for evaluation item at index " ++ toString i ++ ".")
        | _, _ =>
          .error ("Invalid structure for evaluation item at index " ++ toString i ++ ".")
      | _, _, _ =>
        .error ("Invalid structure for evaluation item at index " ++ toString i ++ ".")
    | _ =>
      .error ("Invalid structure for evaluation item at index " ++ toString i ++ ".")

/-- Schema validation of the decoded evaluation payload (interview.py lines
338-355), in source order: the payload must be a dict, `evaluations` must be
a list, `overall_grade` an int, `overall_justification` a string, the list
length must equal the number of questions, and each item must pass
`validate_items`.  Any violation raises `ValueError` with the corresponding
message. -/
def validate_evaluation (payload : JsonVal) (num_expected : Nat) :
    Except String Evaluation :=
  match payload with
  | .obj fields =>
    match jsonLookup fields "evaluations" with
    | some (.arr evs) =>
      match jsonLookup fields "overall_grade" with
      | some og =>
        match og.asPyInt? with
        | some ogv =>
          match jsonLookup fields "overall_justification" with
          | some (.str oj) =>
            if evs.length = num_expected then
              match validate_items evs 0 with
              | .ok items => .ok ⟨items, ogv, oj⟩
              | .error m => .error m
            else
              .error ("JSON response evaluations list length (" ++
                toString evs.length ++ ") does not match number of questions (" ++
                toString num_expected ++ ").")
          | _ => .error "JSON response missing or invalid overall_justification."
        | none => .error "JSON response missing or invalid overall_grade."
      | none => .error "JSON response missing or invalid overall_grade."
    | _ => .error "JSON response missing evaluations list."
  | _ => .error "Evaluation response is not a JSON object."

/-- The synthetic evaluation built when no answer was typed (interview.py
lines 268-274): one `grade 1 / Not answered` record per question and an
overall grade of 1. -/
def synthetic_no_answer_eval (num : Nat) : Evaluation :=
  ⟨(List.range num).map (fun i => ⟨Int.ofNat i, 1, "Not answered"⟩), 1,
    "No answers were provided for evaluation."⟩

/-- `evaluate_answers_openai` (interview.py lines 244-373).  The entry guard
rejects an empty question list, an empty answer list, or lists of unequal
length before doing anything else.  If every answer is blank the function
returns the synthetic evaluation without calling the service.  Otherwise it
calls the service; a decode failure, a schema violation, and a client
exception each return Python `None` through their own `except` branch with
its own `st.error` message, modelled by the distinct `EvalError`
constructors.  The `num_questions` argument is only used for the `max_tokens`
request parameter in the source; validation compares against
`len(questions)`. -/
def evaluate_answers_openai (questions answers : List String)
    (num_questions : Nat) (svc : JsonOutcome) :
    CallResult (Except EvalError Evaluation) :=
  if questions = [] ∨ answers = [] ∨ questions.length ≠ answers.length then
    ⟨.error .invalidInput, false, []⟩
  else if answers.all isBlank then
    ⟨.ok (synthetic_no_answer_eval questions.length), false,
      [.warning "Cannot evaluate as no answers were provided."]⟩
  else
    match svc with
    | .exception e =>
      ⟨.error (.serviceError e), true,
        [.error ("An unexpected error occurred during evaluation: " ++ e)]⟩
    | .decodeError =>
      ⟨.error .decodeError, true,
        [.error "Error: Could not parse the AI evaluation response (invalid JSON)."]⟩
    | .decoded j =>
      match validate_evaluation j questions.length with
      | .ok ev => ⟨.ok ev, true, []⟩
      | .error m =>
        ⟨.error (.validationError m), true,
          [.error ("Error: The AI evaluation response had an invalid structure. " ++ m)]⟩

/-- Outcome of the finished-phase safety sweep (interview.py lines 603-617):
the (possibly rewritten) answers list, the `all_answers_safe` flag, the
collected `unsafe_indices`, and the indices for which `check_answer_safety`
was called. -/
structure SweepResult where
  answers : List String
  all_answers_safe : Bool
  unsafe_indices : List Nat
  invoked : List Nat
  deriving DecidableEq

/-- The finished-phase loop over `enumerate(st.session_state.answers)` with
start index `i`: a blank answer is skipped; a non-blank answer is passed to
`check_answer_safety`, and only a `False` result (`is_safe is False`)
replaces the slot with the flagged placeholder, while a `None` result (check
errored) clears `all_answers_safe` but leaves the slot unchanged.  Each slot
is handled independently, so the right fold computes the same lists and flag
as the Python left-to-right loop. -/
def finished_safety_sweep (oracle : Nat → TextOutcome) :
    Nat → List String → SweepResult
  | _, [] => ⟨[], true, [], []⟩
  | i, a :: rest =>
    let r := finished_safety_sweep oracle (i + 1) rest
    if isBlank a then
      ⟨a :: r.answers, r.all_answers_safe, r.unsafe_indices, r.invoked⟩
    else
      match (check_answer_safety a (oracle i)).result with
      | some true =>
        ⟨a :: r.answers, r.all_answers_safe, r.unsafe_indices, i :: r.invoked⟩
      | some false =>
        ⟨"[Content Flagged as Unsafe]" :: r.answers, false,
          i :: r.unsafe_indices, i :: r.invoked⟩
      | none =>
        ⟨a :: r.answers, false, r.unsafe_indices, i :: r.invoked⟩

/-- Entry into the finished phase runs the sweep over the whole answers list
from index 0. -/
def finished_entry_sweep (answers : List String) (oracle : Nat → TextOutcome) :
    SweepResult :=
  finished_safety_sweep oracle 0 answers

/-- What one sweep iteration leaves in an answer slot: blank answers are
untouched, and a non-blank answer is replaced by the placeholder exactly when
its safety check returned `False`. -/
def sweep_slot (oracle : Nat → TextOutcome) (i : Nat) (a : String) : String :=
  if isBlank a then a
  else
    match (check_answer_safety a (oracle i)).result with
    | some false => "[Content Flagged as Unsafe]"
    | _ => a

/-- The wizard phases held in `st.session_state.interview_phase`. -/
inductive Phase where
  | setup
  | interviewing
  | finished
  deriving DecidableEq

/-- The process-wide Streamlit session record (interview.py lines 384-393),
one field per `st.session_state` key the wizard uses. -/
structure Session where
  interview_phase : Phase
  questions : List String
  answers : List String
  current_question_index : Nat
  evaluation_results : Option Evaluation
  num_questions_selected : Nat
  questions_complexity : String
  selected_option : String
  custom_role_input : String
  effective_role : String
  deriving DecidableEq

/-- The `st.session_state.setdefault` defaults installed at process start
(interview.py lines 384-393). -/
def initialSession : Session :=
  ⟨.setup, [], [], 0, none, 5, "Medium", "App Developer", "", "App Developer"⟩

/-- The `Start New Interview` button handler (interview.py lines 718-729).
It resets most fields, but sets `num_questions_selected` to 3 (the process
default is 5) and does not touch `questions_complexity`. -/
def resetSession (s : Session) : Session :=
  { s with
    interview_phase := .setup
    questions := []
    answers := []
    current_question_index := 0
    evaluation_results := none
    selected_option := "App Developer"
    custom_role_input := ""
    effective_role := "App Developer"
    num_questions_selected := 3 }

/-- The `Start ... Interview` button handler (interview.py lines 502-521):
`generated` is the return value of `generate_questions_openai`.  On a truthy
(non-empty) list the handler installs one empty answer per question, resets
the index, clears the old evaluation, and moves to `interviewing`; otherwise
it stays in `setup`.  The Python code stores the generator result in
`questions` even when it is `None`; a stored `None` and a stored `[]` are
both falsy and the phase stays `setup`, so the model collapses them to
`[]`. -/
def startInterview (s : Session) (generated : Option (List String)) : Session :=
  match generated with
  | some qs =>
    if qs = [] then { s with questions := [] }
    else
      { s with
        questions := qs
        answers := List.replicate qs.length ""
        current_question_index := 0
        evaluation_results := none
        interview_phase := .interviewing }
  | none => { s with questions := [] }

/-- The `Previous` button (interview.py lines 569-572), rendered only when
`current_question_index > 0`. -/
def previousQuestion (s : Session) : Session :=
  { s with current_question_index := s.current_question_index - 1 }

/-- The `Submit & Next` / `Finish Interview & Evaluate` button (interview.py
lines 578-589): on the last question it moves to `finished`, otherwise it
advances the index. -/
def submitNext (s : Session) : Session :=
  if s.current_question_index = s.questions.length - 1 then
    { s with interview_phase := .finished }
  else
    { s with current_question_index := s.current_question_index + 1 }

/-- The `End Early` button (interview.py lines 593-595). -/
def endEarly (s : Session) : Session :=
  { s with interview_phase := .finished }

/-- Answer truncation enforced by the text area widget (`max_chars=1000`,
interview.py line 552). -/
def truncateAnswer (s : String) : String := String.mk (s.data.take 1000)

/-- Editing the current answer (interview.py lines 547-556): the widget value
is written back into the aligned slot immediately. -/
def editAnswer (s : Session) (text : String) : Session :=
  { s with answers :=
      s.answers.set s.current_question_index (truncateAnswer text) }

/-- The invariant claimed for the interviewing phase: the answers list is
aligned with the questions list and the current index is in range. -/
def interviewInv (s : Session) : Prop :=
  s.interview_phase = Phase.interviewing →
    (s.answers.length = s.questions.length ∧
      s.current_question_index < s.questions.length)

instance interviewInvDecidable (s : Session) : Decidable (interviewInv s) := by
  unfold interviewInv
  infer_instance

/-- Shape requirement on one entry of the `evaluations` list, following the
spec wording for the Answer Evaluator schema: the entry is an object whose
`question_index` equals its position and whose `grade` / `justification` keys
are present and correctly typed (integer resp. string, with the integer test
being the Python `isinstance(_, int)` the code applies). -/
def itemShapeOk (i : Nat) (item : JsonVal) : Bool :=
  match item with
  | .obj fields =>
    (match jsonLookup fields "question_index" with
     | some qi => qi.asPyInt? == some (Int.ofNat i)
     | none => false)
    && (match jsonLookup fields "grade" with
        | some g => g.asPyInt?.isSome
        | none => false)
    && (match jsonLookup fields "justification" with
        | some (.str _) => true
        | _ => false)
  | _ => false

/-- All entries of the `evaluations` list satisfy `itemShapeOk` at their
positions, starting from position `i`. -/
def itemsShapeOk : Nat → List JsonVal → Bool
  | _, [] => true
  | i, item :: rest => itemShapeOk i item && itemsShapeOk (i + 1) rest

/-- Shape requirement on the decoded evaluation payload, following the spec
wording: an object with an `evaluations` list of exactly `num_expected`
well-shaped entries, an integer `overall_grade`, and a string
`overall_justification`. -/
def evalShapeOk (j : JsonVal) (num_expected : Nat) : Bool :=
  match j with
  | .obj fields =>
    (match jsonLookup fields "evaluations" with
     | some (.arr evs) => evs.length == num_expected && itemsShapeOk 0 evs
     | _ => false)
    && (match jsonLookup fields "overall_grade" with
        | some og => og.asPyInt?.isSome
        | none => false)
    && (match jsonLookup fields "overall_justification" with
        | some (.str _) => true
        | _ => false)
  | _ => false

/-- A concrete reachable finished-phase session used to exhibit the reset
behaviour: question count 7, complexity Hard. -/
def finishedSessionExample : Session :=
  { initialSession with
    interview_phase := .finished
    questions := ["q1"]
    answers := ["a1"]
    num_questions_selected := 7
    questions_complexity := "Hard" }

/-- A concrete safety-check oracle: the service deems the answer at index 1
unsafe and every other answer safe. -/
def sweepOracleExample : Nat → TextOutcome :=
  fun n => if n = 1 then .content "UNSAFE" else .content "SAFE"


/-- Claim C9: for every input string that is empty or consists only of
whitespace, `check_answer_safety` returns the safe result without making any
external service call (and without emitting any message), whatever the
service would have answered. -/
theorem blank_answer_safe_without_call (answer : String) (svc : TextOutcome)
    (h : isBlank answer = true) :
    check_answer_safety answer svc = ⟨some true, false, []⟩ := by
  simp [check_answer_safety, h]

/-- Witness for C9 at the two-space string and an oracle that would raise. -/
theorem blank_answer_safe_without_call_witness :
    check_answer_safety "  " (TextOutcome.exception "boom") = ⟨some true, false, []⟩ :=
  blank_answer_safe_without_call "  " (TextOutcome.exception "boom") (by decide)

/-- Claim C10: called with an empty question list, an empty answer list, or
lists of unequal length, `evaluate_answers_openai` returns the error sentinel
immediately: no service call is made and no user-visible message (hence no
state change) is produced. -/
theorem evaluate_invalid_input_guard (questions answers : List String)
    (num_questions : Nat) (svc : JsonOutcome)
    (h : questions = [] ∨ answers = [] ∨ questions.length ≠ answers.length) :
    evaluate_answers_openai questions answers num_questions svc =
      ⟨Except.error EvalError.invalidInput, false, []⟩ := by
  unfold evaluate_answers_openai
  rw [if_pos h]

/-- Witness for C10 at an empty question list. -/
theorem evaluate_invalid_input_guard_witness :
    evaluate_answers_openai [] ["a"] 5 JsonOutcome.decodeError =
      ⟨Except.error EvalError.invalidInput, false, []⟩ :=
  evaluate_invalid_input_guard [] ["a"] 5 JsonOutcome.decodeError (Or.inl rfl)

/-- Counterexample to claim C2: the `Start New Interview` reset does not
restore every field to its process-start default.  From a finished session
with question count 7 and complexity Hard, the reset sets the question count
to 3 (the process-start default is 5) and leaves the complexity label at
Hard (the default is Medium). -/
theorem reset_keeps_complexity_and_sets_count_to_three :
    (resetSession finishedSessionExample).num_questions_selected = 3 ∧
    initialSession.num_questions_selected = 5 ∧
    (resetSession finishedSessionExample).questions_complexity = "Hard" ∧
    initialSession.questions_complexity = "Medium" := by decide

/-- Claim C2 (amended): the `Start New Interview` reset restores the phase,
questions, answers, current index, evaluation result, selected option,
custom role text, and effective role to their process-start defaults, but it
sets the question count to 3 (whose process-start default is 5) and leaves
the complexity label unchanged. -/
theorem reset_session_spec (s : Session) :
    resetSession s =
      { interview_phase := Phase.setup
        questions := []
        answers := []
        current_question_index := 0
        evaluation_results := none
        num_questions_selected := 3
        questions_complexity := s.questions_complexity
        selected_option := "App Developer"
        custom_role_input := ""
        effective_role := "App Developer" } := rfl

/-- Counterexample to claim C6: with questions `[q1, q2]` and answer list
`[""]`, every answer in the list passed to `evaluate_answers_openai` is
empty, yet the function returns the entry-guard error sentinel, not the
synthetic "not answered" evaluation: the short-circuit only happens after
the guard on non-empty, equal-length lists. -/
theorem evaluate_empty_answer_list_guard :
    (([""] : List String).all isBlank = true) ∧
    (evaluate_answers_openai ["q1", "q2"] [""] 2
        (JsonOutcome.decoded (JsonVal.obj []))).result
      = Except.error EvalError.invalidInput := by decide

/-- Claim C6 (amended): provided the entry guard passes (both lists non-empty
and of equal length), if every answer is empty or whitespace-only then
`evaluate_answers_openai` returns, without any external service call, the
synthetic evaluation: one record per question with grade 1 and justification
`Not answered`, overall grade 1, and the overall no-answers justification. -/
theorem evaluate_all_blank_synthetic (questions answers : List String)
    (num_questions : Nat) (svc : JsonOutcome)
    (hq : questions ≠ []) (ha : answers ≠ [])
    (hlen : questions.length = answers.length)
    (hblank : answers.all isBlank = true) :
    evaluate_answers_openai questions answers num_questions svc =
      ⟨Except.ok (synthetic_no_answer_eval questions.length), false,
        [UiMsg.warning "Cannot evaluate as no answers were provided."]⟩ ∧
    (synthetic_no_answer_eval questions.length).evaluations.length
        = questions.length ∧
    (∀ it, it ∈ (synthetic_no_answer_eval questions.length).evaluations →
        it.grade = 1 ∧ it.justification = "Not answered") ∧
    (synthetic_no_answer_eval questions.length).overall_grade = 1 ∧
    (synthetic_no_answer_eval questions.length).overall_justification
        = "No answers were provided for evaluation." := by
  have hc : ¬(questions = [] ∨ answers = [] ∨ questions.length ≠ answers.length) := by
    simp [hq, ha, hlen]
  refine ⟨?_, ?_, ?_, rfl, rfl⟩
  · unfold evaluate_answers_openai
    rw [if_neg hc]
    simp [hblank]
  · simp [synthetic_no_answer_eval]
  · intro it hit
    simp only [synthetic_no_answer_eval, List.mem_map] at hit
    obtain ⟨i, _, rfl⟩ := hit
    exact ⟨rfl, rfl⟩

/-- Witness for C6 with two questions and blank answers. -/
theorem evaluate_all_blank_synthetic_witness :
    evaluate_answers_openai ["q1", "q2"] ["", " "] 2 JsonOutcome.decodeError =
      ⟨Except.ok (synthetic_no_answer_eval 2), false,
        [UiMsg.warning "Cannot evaluate as no answers were provided."]⟩ :=
  (evaluate_all_blank_synthetic ["q1", "q2"] ["", " "] 2 JsonOutcome.decodeError
    (by decide) (by decide) (by decide) (by decide)).1

/-- Counterexample to claim C1: requesting 3 questions, a well-formed reply
whose list holds a single string makes `generate_questions_openai` return a
one-element list, which is neither of length 3 nor empty: the code only
truncates (`parsed_questions[:num_questions]`) and never rejects a short
list. -/
theorem generate_questions_partial_result :
    (generate_questions_openai 3
        (JsonOutcome.decoded (JsonVal.obj
          [("questions", JsonVal.arr [JsonVal.str "Only question"])]))).result
      = some ["Only question"] ∧
    (["Only question"] : List String).length ≠ 3 ∧
    (["Only question"] : List String) ≠ [] := by decide

/-- Claim C1 (amended): whenever `generate_questions_openai` returns a list
at all (it returns Python `None` on a client exception), that list has at
most the requested number of strings: the parsed list is truncated to the
requested count on success and every parse or shape failure yields the empty
list, but a reply with fewer strings than requested is returned as-is. -/
theorem generate_questions_never_exceeds_request (num_questions : Nat)
    (svc : JsonOutcome) (qs : List String)
    (h : (generate_questions_openai num_questions svc).result = some qs) :
    qs.length ≤ num_questions := by
  cases svc with
  | exception e => simp [generate_questions_openai] at h
  | decodeError =>
    simp [generate_questions_openai] at h
    subst h
    simp
  | decoded j =>
    cases j with
    | obj fields =>
      cases hl : jsonLookup fields "questions" with
      | none =>
        simp [generate_questions_openai, hl] at h
        subst h
        simp
      | some v =>
        cases v with
        | arr elems =>
          by_cases hall : elems.all JsonVal.isStr = true
          · simp [generate_questions_openai, hl, hall] at h
            subst h
            simp only [List.length_take]
            omega
          · simp [generate_questions_openai, hl, hall] at h
            subst h
            simp
        | null =>
          simp [generate_questions_openai, hl] at h
          subst h
          simp
        | bool b =>
          simp [generate_questions_openai, hl] at h
          subst h
          simp
        | int n =>
          simp [generate_questions_openai, hl] at h
          subst h
          simp
        | str s =>
          simp [generate_questions_openai, hl] at h
          subst h
          simp
        | obj f2 =>
          simp [generate_questions_openai, hl] at h
          subst h
          simp
    | null =>
      simp [generate_questions_openai] at h
      subst h
      simp
    | bool b =>
      simp [generate_questions_openai] at h
      subst h
      simp
    | int n =>
      simp [generate_questions_openai] at h
      subst h
      simp
    | str s =>
      simp [generate_questions_openai] at h
      subst h
      simp
    | arr elems =>
      simp [generate_questions_openai] at h
      subst h
      simp

/-- Witness for C1: a two-string reply against a request for 3. -/
theorem generate_questions_never_exceeds_request_witness :
    (generate_questions_openai 3
        (JsonOutcome.decoded (JsonVal.obj
          [("questions", JsonVal.arr [JsonVal.str "Q1", JsonVal.str "Q2"])]))).result
      = some ["Q1", "Q2"] ∧
    (["Q1", "Q2"] : List String).length ≤ 3 :=
  ⟨by decide,
    generate_questions_never_exceeds_request 3
      (JsonOutcome.decoded (JsonVal.obj
        [("questions", JsonVal.arr [JsonVal.str "Q1", JsonVal.str "Q2"])]))
      ["Q1", "Q2"] (by decide)⟩

/-- Counterexample to claim C5: on a reply that is neither literal token, the
Answer Safety Checker does not produce the error signal distinct from
rejection: it returns the unsafe/rejection value `False` (only a service
failure or a contentless response yields `None`). -/
theorem unclear_safety_reply_is_unsafe_not_error :
    (check_answer_safety "hello" (TextOutcome.content "MAYBE")).result
      = some false ∧
    (check_answer_safety "hello" (TextOutcome.content "MAYBE")).result ≠ none := by
  decide

/-- Counterexample to claim C7: on a client exception,
`generate_questions_openai` emits no user-visible message at all — its
`except` branch only prints to the console — and returns Python `None`
rather than a message plus sentinel pair. -/
theorem generate_exception_no_user_message :
    (generate_questions_openai 3 (JsonOutcome.exception "boom")).messages = [] ∧
    (generate_questions_openai 3 (JsonOutcome.exception "boom")).result = none := by
  decide

/-- Claim C7 (amended): every external-call failure is caught inside the four
service-calling functions and converted into a sentinel return value, so no
exception reaches the wizard layer; `check_role`, `check_answer_safety` and
`evaluate_answers_openai` additionally emit a user-visible error message,
while `generate_questions_openai` returns its sentinel silently (console
print only). -/
theorem external_failure_sentinels (role answer e : String)
    (questions answers : List String) (num_questions : Nat)
    (hans : isBlank answer = false)
    (hq : questions ≠ []) (ha : answers ≠ [])
    (hlen : questions.length = answers.length)
    (hblank : answers.all isBlank = false) :
    check_role role (TextOutcome.exception e) =
      ⟨none, true,
        [UiMsg.error ("An unexpected error occurred during role name validation: " ++ e)]⟩ ∧
    check_answer_safety answer (TextOutcome.exception e) =
      ⟨none, true,
        [UiMsg.error ("An unexpected error occurred during answer safety check: " ++ e)]⟩ ∧
    generate_questions_openai num_questions (JsonOutcome.exception e) =
      ⟨none, true, []⟩ ∧
    evaluate_answers_openai questions answers num_questions (JsonOutcome.exception e) =
      ⟨Except.error (EvalError.serviceError e), true,
        [UiMsg.error ("An unexpected error occurred during evaluation: " ++ e)]⟩ := by
  have hc : ¬(questions = [] ∨ answers = [] ∨ questions.length ≠ answers.length) := by
    simp [hq, ha, hlen]
  refine ⟨rfl, ?_, rfl, ?_⟩
  · simp [check_answer_safety, hans]
  · unfold evaluate_answers_openai
    rw [if_neg hc]
    simp [hblank]

/-- Witness for C7: the evaluator converts a concrete exception into its
sentinel and error message. -/
theorem external_failure_sentinels_witness :
    evaluate_answers_openai ["q"] ["a"] 3 (JsonOutcome.exception "boom") =
      ⟨Except.error (EvalError.serviceError "boom"), true,
        [UiMsg.error ("An unexpected error occurred during evaluation: " ++ "boom")]⟩ :=
  (external_failure_sentinels "Data Analyst" "hello" "boom" ["q"] ["a"] 3
    (by decide) (by decide) (by decide) (by decide) (by decide)).2.2.2

/-- Claim C5 (amended): both checkers distinguish three outcomes.
`check_role` returns the original string on a `VALID` reply, the empty string
on an `INVALID` reply, and the error signal `None` on a service failure, a
contentless response, or an unparseable reply.  `check_answer_safety`
returns safe on `SAFE`, unsafe on `UNSAFE`, and the error signal `None` only
on a service failure or a contentless response; an unparseable reply is
treated as unsafe (the rejection value), not as an error. -/
theorem checker_tri_state (role answer e s : String)
    (hans : isBlank answer = false) :
    ((check_role role (TextOutcome.exception e)).result = none) ∧
    ((check_role role TextOutcome.noContent).result = none) ∧
    (pyUpper (pyStrip s) = "VALID" →
        (check_role role (TextOutcome.content s)).result = some role) ∧
    (pyUpper (pyStrip s) = "INVALID" →
        (check_role role (TextOutcome.content s)).result = some "") ∧
    (s ≠ "" → pyUpper (pyStrip s) ≠ "VALID" → pyUpper (pyStrip s) ≠ "INVALID" →
        (check_role role (TextOutcome.content s)).result = none) ∧
    ((check_answer_safety answer (TextOutcome.exception e)).result = none) ∧
    ((check_answer_safety answer TextOutcome.noContent).result = none) ∧
    (pyUpper (pyStrip s) = "SAFE" →
        (check_answer_safety answer (TextOutcome.content s)).result = some true) ∧
    (pyUpper (pyStrip s) = "UNSAFE" →
        (check_answer_safety answer (TextOutcome.content s)).result = some false) ∧
    (s ≠ "" → pyUpper (pyStrip s) ≠ "SAFE" → pyUpper (pyStrip s) ≠ "UNSAFE" →
        (check_answer_safety answer (TextOutcome.content s)).result = some false) := by
  have hne : ∀ t : String, pyUpper (pyStrip s) = t → t ≠ "" → s ≠ "" := by
    rintro t hv hnz rfl
    exact hnz (hv.symm.trans (by decide))
  refine ⟨rfl, rfl, ?_, ?_, ?_, ?_, ?_, ?_, ?_, ?_⟩
  · intro hv
    have hs : s ≠ "" := hne _ hv (by decide)
    simp [check_role, hs, hv]
  · intro hv
    have hs : s ≠ "" := hne _ hv (by decide)
    simp [check_role, hs, hv]
  · intro hs hv hi
    simp [check_role, hs, hv, hi]
  · simp [check_answer_safety, hans]
  · simp [check_answer_safety, hans]
  · intro hv
    have hs : s ≠ "" := hne _ hv (by decide)
    simp [check_answer_safety, hans, hs, hv]
  · intro hv
    have hs : s ≠ "" := hne _ hv (by decide)
    simp [check_answer_safety, hans, hs, hv]
  · intro hs hv hu
    simp [check_answer_safety, hans, hs, hv, hu]

/-- Witness for C5 at concrete strings, covering an accepted role and an
unclear safety reply. -/
theorem checker_tri_state_witness :
    (check_role "Data Analyst" (TextOutcome.content " valid ")).result
        = some "Data Analyst" ∧
    (check_answer_safety "hello" (TextOutcome.content "odd reply")).result
        = some false := by
  have h := checker_tri_state "Data Analyst" "hello" "x" " valid " (by decide)
  have h2 := checker_tri_state "Data Analyst" "hello" "x" "odd reply" (by decide)
  exact ⟨h.2.2.1 (by decide),
    h2.2.2.2.2.2.2.2.2.2 (by decide) (by decide) (by decide)⟩

/-- Claim C8: the interviewing invariant — answers aligned with questions and
the current index in range — is established by the setup-to-interviewing
transition and preserved by Previous, Submit & Next, End Early, and answer
editing. -/
theorem interviewing_invariant_preserved (s : Session)
    (generated : Option (List String)) (text : String) :
    (s.interview_phase = Phase.setup → interviewInv (startInterview s generated)) ∧
    (interviewInv s → s.interview_phase = Phase.interviewing →
      ((0 < s.current_question_index → interviewInv (previousQuestion s)) ∧
        interviewInv (submitNext s) ∧
        interviewInv (endEarly s) ∧
        interviewInv (editAnswer s text))) := by
  constructor
  · intro hs
    cases generated with
    | none => simp [startInterview, interviewInv, hs]
    | some qs =>
      by_cases hqs : qs = []
      · simp [startInterview, hqs, interviewInv, hs]
      · simp [startInterview, hqs, interviewInv]
        exact List.length_pos.mpr hqs
  · intro hinv hph
    obtain ⟨hlen, hidx⟩ := hinv hph
    refine ⟨?_, ?_, ?_, ?_⟩
    · intro _
      intro _
      refine ⟨hlen, ?_⟩
      show s.current_question_index - 1 < s.questions.length
      omega
    · unfold submitNext
      by_cases hlast : s.current_question_index = s.questions.length - 1
      · simp [hlast, interviewInv]
      · simp [hlast, interviewInv]
        intro _
        exact ⟨hlen, by omega⟩
    · simp [endEarly, interviewInv]
    · intro _
      exact ⟨by simp [editAnswer, List.length_set, hlen], by simp [editAnswer]; omega⟩

/-- Witness for C8: starting from the process defaults with a three-question
reply establishes the invariant, and editing an answer preserves it. -/
theorem interviewing_invariant_preserved_witness :
    interviewInv (startInterview initialSession (some ["q1", "q2", "q3"])) ∧
    interviewInv
      (editAnswer (startInterview initialSession (some ["q1", "q2", "q3"])) "hi") := by
  have h1 :=
    (interviewing_invariant_preserved initialSession (some ["q1", "q2", "q3"]) "hi").1 rfl
  refine ⟨h1, ?_⟩
  exact ((interviewing_invariant_preserved
      (startInterview initialSession (some ["q1", "q2", "q3"])) none "hi").2
    h1 (by decide)).2.2.2

theorem sweep_answers_cons (oracle : Nat → TextOutcome) (k : Nat) (a : String)
    (rest : List String) :
    (finished_safety_sweep oracle k (a :: rest)).answers
      = sweep_slot oracle k a :: (finished_safety_sweep oracle (k + 1) rest).answers := by
  by_cases hb : isBlank a
  · simp [finished_safety_sweep, sweep_slot, hb]
  · rcases hres : (check_answer_safety a (oracle k)).result with _ | b
    · simp [finished_safety_sweep, sweep_slot, hb, hres]
    · cases b <;> simp [finished_safety_sweep, sweep_slot, hb, hres]

theorem sweep_invoked_cons (oracle : Nat → TextOutcome) (k : Nat) (a : String)
    (rest : List String) :
    (finished_safety_sweep oracle k (a :: rest)).invoked
      = if isBlank a then (finished_safety_sweep oracle (k + 1) rest).invoked
        else k :: (finished_safety_sweep oracle (k + 1) rest).invoked := by
  by_cases hb : isBlank a
  · simp [finished_safety_sweep, hb]
  · rcases hres : (check_answer_safety a (oracle k)).result with _ | b
    · simp [finished_safety_sweep, hb, hres]
    · cases b <;> simp [finished_safety_sweep, hb, hres]

theorem sweep_safe_cons (oracle : Nat → TextOutcome) (k : Nat) (a : String)
    (rest : List String) :
    (finished_safety_sweep oracle k (a :: rest)).all_answers_safe
      = ((isBlank a || ((check_answer_safety a (oracle k)).result == some true))
          && (finished_safety_sweep oracle (k + 1) rest).all_answers_safe) := by
  by_cases hb : isBlank a
  · simp [finished_safety_sweep, hb]
  · rcases hres : (check_answer_safety a (oracle k)).result with _ | b
    · simp [finished_safety_sweep, hb, hres]
    · cases b <;> simp [finished_safety_sweep, hb, hres]

theorem sweep_answers_length (oracle : Nat → TextOutcome) :
    ∀ (l : List String) (k : Nat),
      (finished_safety_sweep oracle k l).answers.length = l.length := by
  intro l
  induction l with
  | nil => intro k; rfl
  | cons a rest ih =>
    intro k
    rw [sweep_answers_cons]
    simp [ih]

theorem sweep_answers_getD (oracle : Nat → TextOutcome) :
    ∀ (l : List String) (k i : Nat), i < l.length →
      (finished_safety_sweep oracle k l).answers.getD i ""
        = sweep_slot oracle (k + i) (l.getD i "") := by
  intro l
  induction l with
  | nil => intro k i hi; simp at hi
  | cons a rest ih =>
    intro k i hi
    rw [sweep_answers_cons]
    cases i with
    | zero => simp
    | succ n =>
      have hn : n < rest.length := by
        simp at hi
        omega
      rw [List.getD_cons_succ, List.getD_cons_succ, ih (k + 1) n hn]
      have harg : k + 1 + n = k + (n + 1) := by omega
      rw [harg]

theorem sweep_invoked_mem (oracle : Nat → TextOutcome) :
    ∀ (l : List String) (k j : Nat),
      j ∈ (finished_safety_sweep oracle k l).invoked ↔
        ∃ i, i < l.length ∧ j = k + i ∧ isBlank (l.getD i "") = false := by
  intro l
  induction l with
  | nil => intro k j; simp [finished_safety_sweep]
  | cons a rest ih =>
    intro k j
    rw [sweep_invoked_cons]
    by_cases hb : isBlank a
    · rw [if_pos hb, ih]
      constructor
      · rintro ⟨i, hi, rfl, hnb⟩
        refine ⟨i + 1, ?_, by omega, by simpa using hnb⟩
        simp only [List.length_cons]
        omega
      · rintro ⟨i, hi, hj, hnb⟩
        cases i with
        | zero =>
          rw [List.getD_cons_zero] at hnb
          exact absurd hb (by simp [hnb])
        | succ n =>
          refine ⟨n, ?_, by omega, by simpa using hnb⟩
          simp only [List.length_cons] at hi
          omega
    · rw [if_neg hb, List.mem_cons, ih]
      constructor
      · rintro (rfl | ⟨i, hi, rfl, hnb⟩)
        · refine ⟨0, by simp, by omega, ?_⟩
          simp only [List.getD_cons_zero]
          simpa using hb
        · refine ⟨i + 1, ?_, by omega, by simpa using hnb⟩
          simp only [List.length_cons]
          omega
      · rintro ⟨i, hi, hj, hnb⟩
        cases i with
        | zero => left; omega
        | succ n =>
          right
          refine ⟨n, ?_, by omega, by simpa using hnb⟩
          simp only [List.length_cons] at hi
          omega

theorem sweep_unsafe_flag (oracle : Nat → TextOutcome) :
    ∀ (l : List String) (k i : Nat), i < l.length →
      isBlank (l.getD i "") = false →
      (check_answer_safety (l.getD i "") (oracle (k + i))).result ≠ some true →
      (finished_safety_sweep oracle k l).all_answers_safe = false := by
  intro l
  induction l with
  | nil => intro k i hi; simp at hi
  | cons a rest ih =>
    intro k i hi hnb hns
    rw [sweep_safe_cons]
    cases i with
    | zero =>
      rw [List.getD_cons_zero] at hnb
      rw [List.getD_cons_zero, Nat.add_zero] at hns
      simp [hnb, hns]
    | succ n =>
      have hn : n < rest.length := by
        simp only [List.length_cons] at hi
        omega
      have harg : k + 1 + n = k + (n + 1) := by omega
      have hflag := ih (k + 1) n hn (by simpa using hnb) (by rw [harg]; simpa using hns)
      simp [hflag]

/-- Counterexample to claim C3: when the safety check for a non-empty answer
errors (here: the client raises), the answer is flagged for display purposes
but is NOT replaced in place with the flagged placeholder — only an
explicitly unsafe (`False`) result triggers the replacement. -/
theorem errored_safety_check_not_replaced :
    (check_answer_safety "hello" (TextOutcome.exception "boom")).result = none ∧
    (finished_entry_sweep ["hello"] (fun _ => TextOutcome.exception "boom")).answers
      = ["hello"] ∧
    (finished_entry_sweep ["hello"] (fun _ => TextOutcome.exception "boom")).all_answers_safe
      = false := by
  refine ⟨by decide, ?_, ?_⟩ <;> rfl

/-- Claim C3 (amended): on entry into the finished phase the Answer Safety
Checker is invoked exactly for the answers that are non-empty after
stripping; an answer is replaced in place with the flagged placeholder
exactly when its check returned unsafe (which includes unclear replies,
mapped to unsafe by `check_answer_safety`); an answer whose check errored is
left unchanged, though the interview is still marked as containing unsafe
content. -/
theorem finished_safety_sweep_spec (answers : List String)
    (oracle : Nat → TextOutcome) (i : Nat) (h : i < answers.length) :
    (finished_entry_sweep answers oracle).answers.length = answers.length ∧
    ((i ∈ (finished_entry_sweep answers oracle).invoked) ↔
        isBlank (answers.getD i "") = false) ∧
    (∀ j, j ∈ (finished_entry_sweep answers oracle).invoked → j < answers.length) ∧
    (finished_entry_sweep answers oracle).answers.getD i ""
        = sweep_slot oracle i (answers.getD i "") ∧
    (isBlank (answers.getD i "") = false →
      (check_answer_safety (answers.getD i "") (oracle i)).result ≠ some true →
      (finished_entry_sweep answers oracle).all_answers_safe = false) := by
  refine ⟨sweep_answers_length oracle answers 0, ?_, ?_, ?_, ?_⟩
  · rw [finished_entry_sweep, sweep_invoked_mem]
    constructor
    · rintro ⟨i2, hi2, hji, hnb⟩
      have : i2 = i := by omega
      rw [← this]
      exact hnb
    · intro hnb
      exact ⟨i, h, by omega, hnb⟩
  · intro j hj
    rw [finished_entry_sweep, sweep_invoked_mem] at hj
    obtain ⟨i2, hi2, rfl, _⟩ := hj
    omega
  · have := sweep_answers_getD oracle answers 0 i h
    simpa using this
  · intro hnb hns
    exact sweep_unsafe_flag oracle answers 0 i h hnb (by simpa using hns)

/-- Witness for C3: with answers `["", "bad answer", "fine"]` and a service
that deems index 1 unsafe, the checker is invoked for indices 1 and 2 only
and slot 1 is replaced with the flagged placeholder. -/
theorem finished_safety_sweep_spec_witness :
    (1 ∈ (finished_entry_sweep ["", "bad answer", "fine"] sweepOracleExample).invoked) ∧
    ¬(0 ∈ (finished_entry_sweep ["", "bad answer", "fine"] sweepOracleExample).invoked) ∧
    (finished_entry_sweep ["", "bad answer", "fine"] sweepOracleExample).answers.getD 1 ""
      = "[Content Flagged as Unsafe]" := by
  have h1 := finished_safety_sweep_spec ["", "bad answer", "fine"] sweepOracleExample 1
    (by decide)
  have h0 := finished_safety_sweep_spec ["", "bad answer", "fine"] sweepOracleExample 0
    (by decide)
  refine ⟨h1.2.1.mpr (by decide), ?_, ?_⟩
  · intro hmem
    exact absurd (h0.2.1.mp hmem) (by decide)
  · rw [h1.2.2.2.1]
    decide

theorem validate_items_ok_shape :
    ∀ (evs : List JsonVal) (k : Nat) (items : List EvalItem),
      validate_items evs k = Except.ok items → itemsShapeOk k evs = true := by
  intro evs
  induction evs with
  | nil => intro k items _; rfl
  | cons item rest ih =>
    intro k items h
    cases item with
    | obj fields =>
      simp only [validate_items] at h
      cases h1 : jsonLookup fields "question_index" with
      | none => simp [h1] at h
      | some qi =>
        cases h2 : jsonLookup fields "grade" with
        | none => simp [h1, h2] at h
        | some g =>
          cases h3 : jsonLookup fields "justification" with
          | none => simp [h1, h2, h3] at h
          | some jv =>
            cases jv with
            | str just =>
              simp only [h1, h2, h3] at h
              cases h4 : qi.asPyInt? with
              | none => simp [h4] at h
              | some qiv =>
                cases h5 : g.asPyInt? with
                | none => simp [h4, h5] at h
                | some gv =>
                  simp only [h4, h5] at h
                  by_cases h6 : qiv = Int.ofNat k
                  · rw [if_pos h6] at h
                    cases h7 : validate_items rest (k + 1) with
                    | error m => rw [h7] at h; simp at h
                    | ok items2 =>
                      have hrest := ih (k + 1) items2 h7
                      simp [itemsShapeOk, itemShapeOk, h1, h2, h3, h4, h5, h6, hrest]
                  · rw [if_neg h6] at h
                    simp at h
            | null => simp [h1, h2, h3] at h
            | bool b => simp [h1, h2, h3] at h
            | int n => simp [h1, h2, h3] at h
            | arr xs => simp [h1, h2, h3] at h
            | obj f2 => simp [h1, h2, h3] at h
    | null => simp [validate_items] at h
    | bool b => simp [validate_items] at h
    | int n => simp [validate_items] at h
    | str s2 => simp [validate_items] at h
    | arr xs => simp [validate_items] at h

theorem validate_evaluation_ok_shape (j : JsonVal) (n : Nat) (ev : Evaluation)
    (h : validate_evaluation j n = Except.ok ev) : evalShapeOk j n = true := by
  cases j with
  | obj fields =>
    simp only [validate_evaluation] at h
    cases h1 : jsonLookup fields "evaluations" with
    | none => simp [h1] at h
    | some v =>
      cases v with
      | arr evs =>
        simp only [h1] at h
        cases h2 : jsonLookup fields "overall_grade" with
        | none => simp [h2] at h
        | some og =>
          simp only [h2] at h
          cases h3 : og.asPyInt? with
          | none => simp [h3] at h
          | some ogv =>
            simp only [h3] at h
            cases h4 : jsonLookup fields "overall_justification" with
            | none => simp [h4] at h
            | some jv =>
              cases jv with
              | str oj =>
                simp only [h4] at h
                by_cases h5 : evs.length = n
                · rw [if_pos h5] at h
                  cases h6 : validate_items evs 0 with
                  | error m => rw [h6] at h; simp at h
                  | ok items =>
                    have hitems := validate_items_ok_shape evs 0 items h6
                    simp [evalShapeOk, h1, h2, h3, h4, h5, hitems]
                · rw [if_neg h5] at h
                  simp at h
              | null => simp [h4] at h
              | bool b => simp [h4] at h
              | int n2 => simp [h4] at h
              | arr xs => simp [h4] at h
              | obj f2 => simp [h4] at h
      | null => simp [h1] at h
      | bool b => simp [h1] at h
      | int n2 => simp [h1] at h
      | str s2 => simp [h1] at h
      | obj f2 => simp [h1] at h
  | null => simp [validate_evaluation] at h
  | bool b => simp [validate_evaluation] at h
  | int n2 => simp [validate_evaluation] at h
  | str s2 => simp [validate_evaluation] at h
  | arr elems => simp [validate_evaluation] at h

/-- Claim C4: on a call that reaches the service (guard passed, at least one
non-blank answer) whose reply decodes to a JSON value violating the schema —
`evaluations` list length different from the question count, an item whose
`question_index` differs from its position, or required keys (`evaluations`,
`overall_grade`, `overall_justification`, per-item `grade` /
`justification`) missing or wrongly typed — `evaluate_answers_openai`
discards the result and returns the validation-failure sentinel, which is
distinct from the JSON-decode failure. -/
theorem evaluate_rejects_invalid_shape (questions answers : List String)
    (num_questions : Nat) (j : JsonVal)
    (hq : questions ≠ []) (ha : answers ≠ [])
    (hlen : questions.length = answers.length)
    (hblank : answers.all isBlank = false)
    (hbad : evalShapeOk j questions.length = false) :
    (∃ m, (evaluate_answers_openai questions answers num_questions
        (JsonOutcome.decoded j)).result = Except.error (EvalError.validationError m)) ∧
    (evaluate_answers_openai questions answers num_questions
        (JsonOutcome.decoded j)).result ≠ Except.error EvalError.decodeError := by
  have hc : ¬(questions = [] ∨ answers = [] ∨ questions.length ≠ answers.length) := by
    simp [hq, ha, hlen]
  cases hv : validate_evaluation j questions.length with
  | ok ev =>
    have := validate_evaluation_ok_shape j questions.length ev hv
    rw [this] at hbad
    exact absurd hbad (by simp)
  | error m =>
    constructor
    · refine ⟨m, ?_⟩
      unfold evaluate_answers_openai
      rw [if_neg hc]
      simp [hblank, hv]
    · unfold evaluate_answers_openai
      rw [if_neg hc]
      simp [hblank, hv]

/-- Witness for C4: a decoded reply that is not even a JSON object is
rejected with the validation-failure sentinel. -/
theorem evaluate_rejects_invalid_shape_witness :
    (∃ m, (evaluate_answers_openai ["q1"] ["a1"] 1
        (JsonOutcome.decoded (JsonVal.arr []))).result
        = Except.error (EvalError.validationError m)) ∧
    (evaluate_answers_openai ["q1"] ["a1"] 1
        (JsonOutcome.decoded (JsonVal.arr []))).result
        ≠ Except.error EvalError.decodeError :=
  evaluate_rejects_invalid_shape ["q1"] ["a1"] 1 (JsonVal.arr [])
    (by decide) (by decide) (by decide) (by decide) (by decide)
